import Mathlib

/-!
Verification of the orbital coordinate and kinematics engine of the
star-system simulation (`interactive_objects.py`, `galaxy_system.py`).

The Python floats are modelled as real numbers; `int()`, `round()` and the
pygame `Rect` integer geometry are modelled exactly (truncation toward zero,
round-half-to-even, C integer division).  Python code that can raise
(`ZeroDivisionError` on float division by zero) is embedded in `Except`.
The `random.uniform` draw of a planet's starting angle is passed in as an
explicit argument.
-/

set_option maxHeartbeats 1000000

noncomputable section

namespace SpaceSim

/-- Python `int()` applied to a float: truncation toward zero. -/
def pyInt (x : ℝ) : ℤ := if 0 ≤ x then ⌊x⌋ else ⌈x⌉

/-- Python 3 `round()` to the nearest integer, ties going to the even one. -/
def pyRound (x : ℝ) : ℤ :=
  if x - ⌊x⌋ < 1 / 2 then ⌊x⌋
  else if 1 / 2 < x - ⌊x⌋ then ⌊x⌋ + 1
  else if Even ⌊x⌋ then ⌊x⌋ else ⌊x⌋ + 1

/-- C integer division by two (toward zero), as pygame's rect code computes
half a width or height. -/
def cHalf (n : ℤ) : ℤ := if 0 ≤ n then n / 2 else -(-n / 2)

/-- pygame `Rect`: integer topleft corner and integer size. -/
structure Rect where
  x : ℤ
  y : ℤ
  w : ℤ
  h : ℤ
deriving Inhabited, DecidableEq

/-- `rect.center` reads `(x + w/2, y + h/2)` (C division). -/
def Rect.center (rc : Rect) : ℤ × ℤ := (rc.x + cHalf rc.w, rc.y + cHalf rc.h)

/-- Assigning `rect.center = c` keeps the size and moves the topleft to
`c - size/2` (C division). -/
def Rect.setCenter (rc : Rect) (c : ℤ × ℤ) : Rect :=
  { rc with x := c.1 - cHalf rc.w, y := c.2 - cHalf rc.h }

/-- Assigning `rect.w` and `rect.h` keeps the topleft. -/
def Rect.setSize (rc : Rect) (w h : ℤ) : Rect := { rc with w := w, h := h }

/-- Module constant `SCALE = 50000/1` (pixels per AU); every object's
`self.scale` starts as this value. -/
def SCALE : ℝ := 50000

/-- `InteractableObject.meter_to_cart(meters)`:
`pixels = meters*self.scale/149.6e9`. -/
def meter_to_cart (scale meters : ℝ) : ℝ := meters * scale / 149.6e9

/-- `InteractableObject.cart_to_meter(cart)`: `cart*(1/self.scale)*149.6e9`. -/
def cart_to_meter (scale cart : ℝ) : ℝ := cart * (1 / scale) * 149.6e9

/-- `InteractableObject.sub` on integer display points; the elementwise
`int(a - b)` is the identity on integer inputs. -/
def subPt (p q : ℤ × ℤ) : ℤ × ℤ := (p.1 - q.1, p.2 - q.2)

/-- The sign selector `(1, -1)[x < 0]` used by `cartesian_to_polar`. -/
def pySign (z : ℤ) : ℝ := if z < 0 then -1 else 1

/-- `PolarObject.cartesian_to_polar(x, y)`: the offset from `self.pole` via
`get_rel_to_pole`, then `r = sqrt(dx^2 + dy^2)` with the two `dx == 0` edge
cases before the generic `theta = atan(dy/dx)`. -/
def cartesian_to_polar (pole : ℤ × ℤ) (x y : ℤ) : ℝ × ℝ :=
  let d := subPt (x, y) pole
  let r := Real.sqrt ((d.1 : ℝ) ^ 2 + (d.2 : ℝ) ^ 2)
  if d.1 = 0 ∧ d.2 ≠ 0 then (r, pySign d.2 * Real.pi / 2)
  else if d.1 = 0 ∧ d.2 = 0 then (0, 0)
  else (r, Real.arctan ((d.2 : ℝ) / (d.1 : ℝ)))

/-- `PolarObject.polar_to_cartesian(r, theta)`:
`add((r*cos(theta), r*sin(theta)), self.pole)`, the elementwise `int(a + b)`
truncating the float sum. -/
def polar_to_cartesian (pole : ℤ × ℤ) (r theta : ℝ) : ℤ × ℤ :=
  (pyInt (r * Real.cos theta + (pole.1 : ℝ)), pyInt (r * Real.sin theta + (pole.2 : ℝ)))

/-- The Python exceptions the embedded code can raise. -/
inductive PyErr
  | zeroDivision
deriving Inhabited, DecidableEq

/-- The value of a successful computation, `d` when it failed. -/
def okOr {α : Type} (d : α) : Except PyErr α → α
  | .ok a => a
  | .error _ => d

/-- `Star.convert_stellar_to_si(st_mass, st_rad)`:
`mass = 1.989e30*st_mass`, `radius = 6.95700e8*st_rad`. -/
def convert_stellar_to_si (st_mass st_rad : ℝ) : ℝ × ℝ :=
  (1.989e30 * st_mass, 6.95700e8 * st_rad)

/-- `Planet.convert_earth_to_si(pl_orbper, pl_mass, pl_rad)`, exactly as
written: its parameters are named, in order, `pl_orbper, pl_mass, pl_rad`, and
it returns `mass, T, radius = pl_mass*5.972e24, pl_orbper*24*60*60,
pl_rad*6.371e6`. -/
def convert_earth_to_si (pl_orbper pl_mass pl_rad : ℝ) : ℝ × ℝ × ℝ :=
  (pl_mass * 5.972e24, pl_orbper * 24 * 60 * 60, pl_rad * 6.371e6)

/-- Local constant `G = 6.67408e-11` of `get_radial_distance_from` (also
`MassObject.G`). -/
def G : ℝ := 6.67408e-11

/-- `Planet.get_radial_distance_from(star)` as a function of `star.mass` and
`self.T`: `pow(G*star.mass*pow(self.T, 2) / (4*pow(pi, 2)), 1/3)`. -/
def radial_distance (star_mass T : ℝ) : ℝ :=
  (G * star_mass * T ^ 2 / (4 * Real.pi ^ 2)) ^ ((1 : ℝ) / 3)

/-- `Planet.get_angular_velocity(r, T) = (2*pi*r)/T`; Python float division
raises `ZeroDivisionError` when `T == 0`. -/
def get_angular_velocity (r T : ℝ) : Except PyErr ℝ :=
  if T = 0 then .error .zeroDivision else .ok (2 * Real.pi * r / T)

/-- The star columns of one csv row (`System.load_csv`). -/
structure StarDict where
  hostname : String
  st_mass : ℝ
  st_rad : ℝ
  st_teff : ℝ
deriving Inhabited

/-- The planet columns of one csv row (`System.load_csv`). -/
structure PlanetDict where
  pl_name : String
  pl_orbper : ℝ
  pl_rade : ℝ
  pl_masse : ℝ
deriving Inhabited

/-- The state of a `Star` object: SI attributes set by `convert_by_type`,
polar state and rect from `PolarObject`/`InteractableObject`. -/
structure Star where
  name : String
  mass : ℝ
  radius : ℝ
  teff : ℝ
  pole : ℤ × ℤ
  r : ℝ
  theta : ℝ
  rect : Rect
  scale : ℝ
deriving Inhabited

/-- The state of a `Planet` object.  `host_star` models the Python reference
to the host; the methods modelled here read only its construction-time
immutable fields (`mass`, `pole`) through it. -/
structure Planet where
  host_star : Star
  name : String
  mass : ℝ
  T : ℝ
  radius : ℝ
  pole : ℤ × ℤ
  r : ℝ
  theta : ℝ
  vw : ℝ
  rect : Rect
  scale : ℝ
deriving Inhabited

/-- `Planet.get_radial_distance_from(star)`. -/
def Planet.get_radial_distance_from (p : Planet) (star : Star) : ℝ :=
  radial_distance star.mass p.T

/-- `InteractableObject.__init__(surface, x, y, w, h)`: the rect has topleft
`round(x - w*.5), round(y - h*.5)` and size `(w, h)` truncated to ints by
pygame. -/
def initRect (x y w h : ℝ) : Rect :=
  ⟨pyRound (x - w * 0.5), pyRound (y - h * 0.5), pyInt w, pyInt h⟩

/-- `Star.__init__(surface, x, y, star_dictionary)`: the pole is the star's
own position, SI fields come from `convert_stellar_to_si` (the alphabetical
attribute scan binds `st_mass, st_rad, st_teff` in order), the rect radius is
`meter_to_cart(radius)` at `SCALE`, and `cartesian_to_polar(x, y)` relative
to the pole `(x, y)` supplies `(r, theta)`. -/
def mkStar (x y : ℤ) (d : StarDict) : Star :=
  let pole : ℤ × ℤ := (x, y)
  let si := convert_stellar_to_si d.st_mass d.st_rad
  let rect_radius := meter_to_cart SCALE si.2
  let rtheta := cartesian_to_polar pole x y
  { name := d.hostname
    mass := si.1
    radius := si.2
    teff := d.st_teff
    pole := pole
    r := rtheta.1
    theta := rtheta.2
    rect := initRect (x : ℝ) (y : ℝ) (rect_radius * 2) (rect_radius * 2)
    scale := SCALE }

/-- `Planet.__init__(surface, host_star, planet_dictionary)`.  The pole is the
host star's pole and the construction position is the hack `x, y = 0, 0`.
`convert_by_type` binds the alphabetically sorted attributes
`pl_masse, pl_name, pl_orbper, pl_rade` and passes the values positionally as
`convert_earth_to_si(pl_masse, pl_orbper, pl_rade)`.  The polar state set by
`PolarObject.__init__` is then overwritten: `r` becomes
`meter_to_cart(get_radial_distance_from(host_star))`, `theta` the
`random.uniform(0, 2*pi)` draw (here the argument `theta0`), the rect center
is `polar_to_cartesian(r, theta)`, and `vw` is
`get_angular_velocity(get_radial_distance_from(host_star), T)`, which raises
`ZeroDivisionError` when `T == 0`. -/
def mkPlanet (host : Star) (d : PlanetDict) (theta0 : ℝ) : Except PyErr Planet :=
  let pole := host.pole
  let c := convert_earth_to_si d.pl_masse d.pl_orbper d.pl_rade
  let mass := c.1
  let T := c.2.1
  let radius := c.2.2
  let rect_radius := meter_to_cart SCALE radius
  let rect0 := initRect 0 0 (rect_radius * 2) (rect_radius * 2)
  let kep := radial_distance host.mass T
  let r1 := meter_to_cart SCALE kep
  let rect1 := rect0.setCenter (polar_to_cartesian pole r1 theta0)
  match get_angular_velocity kep T with
  | .error e => .error e
  | .ok vw =>
      .ok { host_star := host
            name := d.pl_name
            mass := mass
            T := T
            radius := radius
            pole := pole
            r := r1
            theta := theta0
            vw := vw
            rect := rect1
            scale := SCALE }

/-- `Planet.move(dt)`: `theta += vw*dt/get_radial_distance_from(host_star)`
(raising `ZeroDivisionError` when that distance is zero), then
`rect.center = polar_to_cartesian(r, theta)`.  The unused local
`w_px = meter_to_cart(vw)` is omitted. -/
def Planet.move (p : Planet) (dt : ℝ) : Except PyErr Planet :=
  let denom := p.get_radial_distance_from p.host_star
  if denom = 0 then .error .zeroDivision
  else
    let theta1 := p.theta + p.vw * dt / denom
    .ok { p with theta := theta1
                 rect := p.rect.setCenter (polar_to_cartesian p.pole p.r theta1) }

/-- `MassObject.update_scale(new_scale)`, `isinstance(self, Star)` branch:
`self.scale = new_scale` first, the rect is resized to
`round(meter_to_cart(self.radius)*2)` at the new scale, its center is pinned
back to the pole, and `r` is multiplied by `new_scale/old_scale`. -/
def Star.update_scale (s : Star) (new_scale : ℝ) : Star :=
  let k := new_scale / s.scale
  let rect_radius := meter_to_cart new_scale s.radius
  let rect1 := (s.rect.setSize (pyRound (rect_radius * 2)) (pyRound (rect_radius * 2))).setCenter s.pole
  { s with scale := new_scale, rect := rect1, r := s.r * k }

/-- `MassObject.update_scale(new_scale)`, non-`Star` branch: the rect is
resized (topleft kept; its center is NOT recomputed), and `r` is multiplied by
`new_scale/old_scale`. -/
def Planet.update_scale (p : Planet) (new_scale : ℝ) : Planet :=
  let k := new_scale / p.scale
  let rect_radius := meter_to_cart new_scale p.radius
  let rect1 := p.rect.setSize (pyRound (rect_radius * 2)) (pyRound (rect_radius * 2))
  { p with scale := new_scale, rect := rect1, r := p.r * k }

/-- `System`: one host star and its planets. -/
structure System where
  host_star : Star
  planets : List Planet
deriving Inhabited

/-- The planet loop of `System.init_bodies`: each planet is constructed from
its dictionary (and its `random.uniform` angle draw) and appended in order; a
raised exception propagates and aborts the whole construction. -/
def initPlanets (host : Star) : List (PlanetDict × ℝ) → Except PyErr (List Planet)
  | [] => .ok []
  | (d, th) :: rest =>
    match mkPlanet host d th with
    | .error e => .error e
    | .ok p =>
      match initPlanets host rest with
      | .error e => .error e
      | .ok ps => .ok (p :: ps)

/-- `System.init_bodies(host_star_dict, list_of_planet_dicts)`: the star is
built at the surface center `(x, y)`, then the planets. -/
def init_bodies (x y : ℤ) (sd : StarDict) (pds : List (PlanetDict × ℝ)) :
    Except PyErr System :=
  let star := mkStar x y sd
  match initPlanets star pds with
  | .error e => .error e
  | .ok ps => .ok ⟨star, ps⟩

/-- `System.change_scale(percent)`:
`new_scale = host_star.scale*(1 + percent)`, then every body's
`update_scale(new_scale)`. -/
def System.change_scale (sys : System) (percent : ℝ) : System :=
  let new_scale := sys.host_star.scale * (1 + percent)
  ⟨sys.host_star.update_scale new_scale, sys.planets.map fun p => p.update_scale new_scale⟩

/-! ### Basic evaluation lemmas -/

lemma pyInt_intCast (z : ℤ) : pyInt (z : ℝ) = z := by
  unfold pyInt
  split <;> simp

lemma pyRound_intCast (z : ℤ) : pyRound (z : ℝ) = z := by
  unfold pyRound
  simp

/-- Inverting a successful `mkPlanet`: when the swapped period attribute
`T = pl_masse*24*60*60` is nonzero, construction succeeds and every field of
the resulting planet object is explicit. -/
lemma mkPlanet_ok (host : Star) (d : PlanetDict) (theta0 : ℝ)
    (hT : d.pl_masse * 24 * 60 * 60 ≠ 0) :
    mkPlanet host d theta0 = .ok
      { host_star := host
        name := d.pl_name
        mass := d.pl_orbper * 5.972e24
        T := d.pl_masse * 24 * 60 * 60
        radius := d.pl_rade * 6.371e6
        pole := host.pole
        r := meter_to_cart SCALE (radial_distance host.mass (d.pl_masse * 24 * 60 * 60))
        theta := theta0
        vw := 2 * Real.pi * radial_distance host.mass (d.pl_masse * 24 * 60 * 60)
                / (d.pl_masse * 24 * 60 * 60)
        rect := (initRect 0 0 (meter_to_cart SCALE (d.pl_rade * 6.371e6) * 2)
                  (meter_to_cart SCALE (d.pl_rade * 6.371e6) * 2)).setCenter
                  (polar_to_cartesian host.pole
                    (meter_to_cart SCALE
                      (radial_distance host.mass (d.pl_masse * 24 * 60 * 60))) theta0)
        scale := SCALE } := by
  simp only [mkPlanet, convert_earth_to_si, get_angular_velocity]
  rw [if_neg hT]

/-- Inverting a failed `mkPlanet`: when `T = pl_masse*24*60*60` is zero,
`get_angular_velocity` raises `ZeroDivisionError`. -/
lemma mkPlanet_err (host : Star) (d : PlanetDict) (theta0 : ℝ)
    (hT : d.pl_masse * 24 * 60 * 60 = 0) :
    mkPlanet host d theta0 = .error .zeroDivision := by
  simp only [mkPlanet, convert_earth_to_si, get_angular_velocity]
  rw [if_pos hT]

lemma init_bodies_singleton (x y : ℤ) (sd : StarDict) (d : PlanetDict) (theta0 : ℝ)
    (p : Planet) (h : mkPlanet (mkStar x y sd) d theta0 = .ok p) :
    init_bodies x y sd [(d, theta0)] = .ok ⟨mkStar x y sd, [p]⟩ := by
  simp only [init_bodies, initPlanets, h]

lemma init_bodies_singleton_err (x y : ℤ) (sd : StarDict) (d : PlanetDict) (theta0 : ℝ)
    (e : PyErr) (h : mkPlanet (mkStar x y sd) d theta0 = .error e) :
    init_bodies x y sd [(d, theta0)] = .error e := by
  simp only [init_bodies, initPlanets, h]

/-! ### C10: meters/pixels conversion round trip -/

/-- C10: For all finite positive (meters, scale), converting meters to pixels
and back (`cart_to_meter ∘ meter_to_cart`) returns the original meters value
(exactly, in the real-number model), the forward conversion being
`pixels = meters * scale / 149.6e9`. -/
theorem C10_meter_pixel_round_trip (scale meters : ℝ) (hs : 0 < scale) (hm : 0 < meters) :
    meter_to_cart scale meters = meters * scale / 149.6e9 ∧
    cart_to_meter scale (meter_to_cart scale meters) = meters := by
  refine ⟨rfl, ?_⟩
  unfold meter_to_cart cart_to_meter
  field_simp
  ring

/-- Witness for C10 at meters = 2, scale = 50000. -/
theorem C10_witness :
    meter_to_cart 50000 2 = 2 * 50000 / 149.6e9 ∧
    cart_to_meter 50000 (meter_to_cart 50000 2) = 2 :=
  C10_meter_pixel_round_trip 50000 2 (by norm_num) (by norm_num)

/-! ### C1: earth-unit conversion at Planet construction -/

/-- The host star used by the concrete C1 evaluation. -/
def c1_star : Star := mkStar 0 0 { hostname := "host", st_mass := 1, st_rad := 1, st_teff := 5000 }

/-- The planet record of the concrete C1 evaluation: 1 earth mass, period
365.25 days, 1 earth radius. -/
def c1_pd : PlanetDict := { pl_name := "p", pl_orbper := 365.25, pl_rade := 1, pl_masse := 1 }

/-- The planet object the construction produces for `c1_pd`. -/
def c1_planet : Planet := okOr default (mkPlanet c1_star c1_pd 0)

/-- C1 (evaluation at the failing input): `convert_by_type` passes
`(pl_masse, pl_orbper, pl_rade)` positionally into parameters named
`(pl_orbper, pl_mass, pl_rad)`, so for `pl_masse = 1`, `pl_orbper = 365.25`,
`pl_rade = 1` the constructed planet has `mass = 365.25 * 5.972e24` (not
`5.972e24 * 1`) and `T = 86400` (not `86400 * 365.25`); only the radius
matches the claimed conversion. -/
theorem C1_construction_swaps_mass_and_period :
    c1_planet.mass = 365.25 * 5.972e24 ∧
    c1_planet.T = 86400 ∧
    c1_planet.radius = 6.371e6 * 1 ∧
    c1_planet.mass ≠ 5.972e24 * 1 ∧
    c1_planet.T ≠ 86400 * 365.25 := by
  have h : mkPlanet c1_star c1_pd 0 = .ok _ := mkPlanet_ok c1_star c1_pd 0 (by norm_num [c1_pd])
  rw [c1_planet, h]
  refine ⟨by norm_num [okOr, c1_pd], by norm_num [okOr, c1_pd], by norm_num [okOr, c1_pd],
    by norm_num [okOr, c1_pd], by norm_num [okOr, c1_pd]⟩

/-! ### C5: the forward polar transform -/

/-- The forward transform as the specification words it: on the offsets
`(dx, dy) = point − pole`, `r = sqrt(dx² + dy²)`, with
`theta = sign(dy)·π/2` when `dx = 0 ∧ dy ≠ 0`, `(r, theta) = (0, 0)` when
both offsets vanish, and `theta = atan(dy/dx)` otherwise. -/
def cartesian_to_polar_spec (pole : ℤ × ℤ) (x y : ℤ) : ℝ × ℝ :=
  let dx := x - pole.1
  let dy := y - pole.2
  let r := Real.sqrt ((dx : ℝ) ^ 2 + (dy : ℝ) ^ 2)
  if dx = 0 ∧ dy ≠ 0 then (r, (if 0 < dy then (1 : ℝ) else -1) * (Real.pi / 2))
  else if dx = 0 ∧ dy = 0 then (0, 0)
  else (r, Real.arctan ((dy : ℝ) / (dx : ℝ)))

/-- The first component of the forward transform is always the euclidean
norm of the offset (also in the degenerate branch, where the literal 0
equals `sqrt 0`). -/
lemma cartesian_to_polar_fst (pole : ℤ × ℤ) (x y : ℤ) :
    (cartesian_to_polar pole x y).1
      = Real.sqrt (((x - pole.1 : ℤ) : ℝ) ^ 2 + ((y - pole.2 : ℤ) : ℝ) ^ 2) := by
  simp only [cartesian_to_polar, subPt]
  split_ifs with h1 h2 <;>
    first
      | rfl
      | (obtain ⟨ha, hb⟩ := h2
         rw [ha, hb]
         norm_num)

/-- C5: for every pole and every integer cartesian point, the code's
`cartesian_to_polar` returns `r = sqrt(dx² + dy²) ≥ 0` and the angle chosen by
exactly the specified branch rules (it agrees with the transform written from
the specification's words on every input). -/
theorem C5_forward_transform (pole : ℤ × ℤ) (x y : ℤ) :
    (cartesian_to_polar pole x y).1
        = Real.sqrt (((x - pole.1 : ℤ) : ℝ) ^ 2 + ((y - pole.2 : ℤ) : ℝ) ^ 2) ∧
    0 ≤ (cartesian_to_polar pole x y).1 ∧
    cartesian_to_polar pole x y = cartesian_to_polar_spec pole x y := by
  refine ⟨cartesian_to_polar_fst pole x y, ?_, ?_⟩
  · rw [cartesian_to_polar_fst pole x y]
    exact Real.sqrt_nonneg _
  · simp only [cartesian_to_polar, cartesian_to_polar_spec, subPt, pySign]
    split_ifs <;>
      first
        | rfl
        | (exfalso; omega)
        | (exact Prod.ext rfl (by ring))

/-! ### C7: Kepler radius derivation -/

/-- Lower bound through the cube root: `a ≤ x^(1/3)` when `a³ ≤ x`. -/
lemma le_rpow_third {x a : ℝ} (ha : 0 ≤ a) (h : a ^ 3 ≤ x) : a ≤ x ^ ((1 : ℝ) / 3) := by
  have h1 : (a ^ 3 : ℝ) ^ ((1 : ℝ) / 3) ≤ x ^ ((1 : ℝ) / 3) :=
    Real.rpow_le_rpow (by positivity) h (by norm_num)
  calc a = ((a ^ 3 : ℝ)) ^ ((1 : ℝ) / 3) := by
              rw [← Real.rpow_natCast a 3, ← Real.rpow_mul ha]
              norm_num
       _ ≤ x ^ ((1 : ℝ) / 3) := h1

/-- Upper bound through the cube root: `x^(1/3) ≤ b` when `0 ≤ x ≤ b³`. -/
lemma rpow_third_le {x b : ℝ} (hx : 0 ≤ x) (hb : 0 ≤ b) (h : x ≤ b ^ 3) :
    x ^ ((1 : ℝ) / 3) ≤ b := by
  have h1 : x ^ ((1 : ℝ) / 3) ≤ (b ^ 3 : ℝ) ^ ((1 : ℝ) / 3) :=
    Real.rpow_le_rpow hx h (by norm_num)
  calc x ^ ((1 : ℝ) / 3) ≤ ((b ^ 3 : ℝ)) ^ ((1 : ℝ) / 3) := h1
       _ = b := by
              rw [← Real.rpow_natCast b 3, ← Real.rpow_mul hb]
              norm_num

/-- The Kepler radius at one solar mass and one Julian year, numerically:
within 1% of 1 AU. -/
lemma radial_distance_earth_bound :
    |radial_distance 1.989e30 31557600 - 1.496e11| ≤ 0.01 * 1.496e11 := by
  have hpl := Real.pi_gt_d6
  have hpu := Real.pi_lt_d6
  have hp2l : (9.8696002 : ℝ) ≤ Real.pi ^ 2 := by nlinarith
  have hp2u : Real.pi ^ 2 ≤ (9.8696066 : ℝ) := by nlinarith
  have hden : (0 : ℝ) < 4 * Real.pi ^ 2 := by positivity
  have hK1 : ((1.48104e11 : ℝ)) ^ 3 ≤ G * 1.989e30 * (31557600 : ℝ) ^ 2 / (4 * Real.pi ^ 2) := by
    rw [le_div_iff₀ hden]
    calc ((1.48104e11 : ℝ)) ^ 3 * (4 * Real.pi ^ 2)
        ≤ ((1.48104e11 : ℝ)) ^ 3 * (4 * 9.8696066) := by nlinarith
      _ ≤ G * 1.989e30 * (31557600 : ℝ) ^ 2 := by norm_num [G]
  have hK2 : G * 1.989e30 * (31557600 : ℝ) ^ 2 / (4 * Real.pi ^ 2) ≤ ((1.51096e11 : ℝ)) ^ 3 := by
    rw [div_le_iff₀ hden]
    calc G * 1.989e30 * (31557600 : ℝ) ^ 2
        ≤ ((1.51096e11 : ℝ)) ^ 3 * (4 * 9.8696002) := by norm_num [G]
      _ ≤ ((1.51096e11 : ℝ)) ^ 3 * (4 * Real.pi ^ 2) := by nlinarith
  have hbase : (0 : ℝ) ≤ G * 1.989e30 * (31557600 : ℝ) ^ 2 / (4 * Real.pi ^ 2) := by
    have : (0 : ℝ) ≤ G * 1.989e30 * (31557600 : ℝ) ^ 2 := by norm_num [G]
    positivity
  have hlow : (1.48104e11 : ℝ) ≤ radial_distance 1.989e30 31557600 := by
    unfold radial_distance
    exact le_rpow_third (by norm_num) hK1
  have hhigh : radial_distance 1.989e30 31557600 ≤ (1.51096e11 : ℝ) := by
    unfold radial_distance
    exact rpow_third_le hbase (by norm_num) hK2
  rw [abs_le]
  constructor <;> nlinarith

/-- The concrete earth-like planet of C7's sanity scenario: `T` is one Julian
year in seconds (the other fields are irrelevant to the radius derivation). -/
def c7_planet : Planet := { (default : Planet) with T := 31557600 }

/-- A one-solar-mass star (the other fields are irrelevant). -/
def c7_star : Star := { (default : Star) with mass := 1.989e30 }

/-- C7: the orbital-radius derivation returns
`(G·M·T²/(4π²))^(1/3)` with `G = 6.67408e-11`; it reads nothing but the host's
mass and the planet's `T`, so it is invariant under every display scale (and
every other field of planet and star); and at one solar mass and one Julian
year the result is within 1% of 1.496e11 m. -/
theorem C7_kepler_radius (p p' : Planet) (s s' : Star)
    (hT : p.T = p'.T) (hM : s.mass = s'.mass) :
    G = 6.67408e-11 ∧
    p.get_radial_distance_from s
      = (G * s.mass * p.T ^ 2 / (4 * Real.pi ^ 2)) ^ ((1 : ℝ) / 3) ∧
    p.get_radial_distance_from s = p'.get_radial_distance_from s' ∧
    |c7_planet.get_radial_distance_from c7_star - 1.496e11| ≤ 0.01 * 1.496e11 := by
  refine ⟨rfl, rfl, ?_, ?_⟩
  · unfold Planet.get_radial_distance_from
    rw [hT, hM]
  · have h : c7_planet.get_radial_distance_from c7_star
        = radial_distance 1.989e30 31557600 := by
      simp [Planet.get_radial_distance_from, c7_planet, c7_star]
    rw [h]
    exact radial_distance_earth_bound

/-- Witness for C7: two planets sharing `T` and two stars sharing mass but at
different display scales. -/
theorem C7_witness :
    G = 6.67408e-11 ∧
    c7_planet.get_radial_distance_from c7_star
      = (G * c7_star.mass * c7_planet.T ^ 2 / (4 * Real.pi ^ 2)) ^ ((1 : ℝ) / 3) ∧
    c7_planet.get_radial_distance_from c7_star
      = Planet.get_radial_distance_from { c7_planet with scale := 1 } { c7_star with scale := 2 } ∧
    |c7_planet.get_radial_distance_from c7_star - 1.496e11| ≤ 0.01 * 1.496e11 :=
  C7_kepler_radius c7_planet { c7_planet with scale := 1 } c7_star { c7_star with scale := 2 }
    rfl rfl

/-! ### C4: polar/cartesian round trip on the unambiguous branch -/

/-- C4: for every pole and every integer display point whose offset from the
pole lies in the unambiguous branch `dx > 0` of the forward transform,
`polar_to_cartesian ∘ cartesian_to_polar` reproduces the original point
exactly (the real-number model of the floating-point claim). -/
theorem C4_round_trip (pole pt : ℤ × ℤ) (hx : 0 < pt.1 - pole.1) :
    polar_to_cartesian pole (cartesian_to_polar pole pt.1 pt.2).1
      (cartesian_to_polar pole pt.1 pt.2).2 = pt := by
  have hne : ¬ (pt.1 - pole.1 = 0 ∧ pt.2 - pole.2 ≠ 0) := by omega
  have hne2 : ¬ (pt.1 - pole.1 = 0 ∧ pt.2 - pole.2 = 0) := by omega
  have hcp : cartesian_to_polar pole pt.1 pt.2
      = (Real.sqrt (((pt.1 - pole.1 : ℤ) : ℝ) ^ 2 + ((pt.2 - pole.2 : ℤ) : ℝ) ^ 2),
         Real.arctan (((pt.2 - pole.2 : ℤ) : ℝ) / ((pt.1 - pole.1 : ℤ) : ℝ))) := by
    simp only [cartesian_to_polar, subPt]
    rw [if_neg hne, if_neg hne2]
  rw [hcp]
  set A : ℝ := ((pt.1 - pole.1 : ℤ) : ℝ) with hA
  set B : ℝ := ((pt.2 - pole.2 : ℤ) : ℝ) with hB
  have hA0 : 0 < A := by
    rw [hA]
    exact_mod_cast hx
  have hS : 0 < A ^ 2 + B ^ 2 := by positivity
  have hSs : 0 < Real.sqrt (A ^ 2 + B ^ 2) := Real.sqrt_pos.mpr hS
  have hdenom : Real.sqrt (1 + (B / A) ^ 2) = Real.sqrt (A ^ 2 + B ^ 2) / A := by
    have h1 : 1 + (B / A) ^ 2 = (A ^ 2 + B ^ 2) / A ^ 2 := by
      field_simp
    rw [h1, Real.sqrt_div (by positivity), Real.sqrt_sq hA0.le]
  have hcos : Real.sqrt (A ^ 2 + B ^ 2) * Real.cos (Real.arctan (B / A)) = A := by
    rw [Real.cos_arctan, hdenom]
    field_simp
  have hsin : Real.sqrt (A ^ 2 + B ^ 2) * Real.sin (Real.arctan (B / A)) = B := by
    rw [Real.sin_arctan, hdenom]
    field_simp
  simp only [polar_to_cartesian]
  rw [hcos, hsin]
  have e1 : A + (pole.1 : ℝ) = ((pt.1 : ℤ) : ℝ) := by
    rw [hA]
    push_cast
    ring
  have e2 : B + (pole.2 : ℝ) = ((pt.2 : ℤ) : ℝ) := by
    rw [hB]
    push_cast
    ring
  rw [e1, e2, pyInt_intCast, pyInt_intCast]

/-- Witness for C4 at pole (0, 0) and point (3, 4). -/
theorem C4_witness :
    polar_to_cartesian (0, 0) (cartesian_to_polar (0, 0) ((3, 4) : ℤ × ℤ).1 ((3, 4) : ℤ × ℤ).2).1
      (cartesian_to_polar (0, 0) ((3, 4) : ℤ × ℤ).1 ((3, 4) : ℤ × ℤ).2).2 = (3, 4) :=
  C4_round_trip (0, 0) (3, 4) (by decide)

/-! ### C2: what rescale does to display positions -/

/-- C2 (amended): after `change_scale` the star's display center equals its
pole, and every planet is rescaled by `update_scale` at the shared new scale;
`update_scale` multiplies a planet's polar radius by `new_scale/old_scale` and
leaves `theta` unchanged, but does NOT recompute the planet's display
position from `(pole, r, theta)` — it only resizes the rect in place, keeping
its topleft.  (The display position is next recomputed from the polar state
at the planet's next `move` call.) -/
theorem C2_rescale_amended (sys : System) (percent : ℝ) (p : Planet) (ns : ℝ) :
    (sys.change_scale percent).host_star.rect.center = sys.host_star.pole ∧
    (sys.change_scale percent).planets
      = sys.planets.map (fun q => q.update_scale (sys.host_star.scale * (1 + percent))) ∧
    (p.update_scale ns).rect.x = p.rect.x ∧
    (p.update_scale ns).rect.y = p.rect.y ∧
    (p.update_scale ns).r = p.r * (ns / p.scale) ∧
    (p.update_scale ns).theta = p.theta := by
  refine ⟨?_, rfl, rfl, rfl, rfl, rfl⟩
  simp only [System.change_scale, Star.update_scale, Rect.setCenter, Rect.setSize, Rect.center]
  obtain ⟨a, b⟩ := sys.host_star.pole
  refine Prod.ext ?_ ?_ <;> simp

/-- The concrete star record of the C2 counterexample. -/
def c2_sd : StarDict := { hostname := "s", st_mass := 1, st_rad := 1, st_teff := 1 }

/-- The concrete planet record of the C2 counterexample; `pl_rade` is chosen
so that the display rect radius is exactly 3 px at `SCALE`. -/
def c2_pd : PlanetDict := { pl_name := "p", pl_orbper := 1, pl_rade := 8976 / 6371, pl_masse := 1 }

/-- The planet object constructed for `c2_pd` (with angle draw 0). -/
def c2_P : Planet := okOr default (mkPlanet (mkStar 0 0 c2_sd) c2_pd 0)

/-- The system built from `c2_sd` and `c2_pd`. -/
def c2_sys : System := okOr default (init_bodies 0 0 c2_sd [(c2_pd, 0)])

/-- The planet immediately after `change_scale(1)` (scale doubled). -/
def c2_planet : Planet := ((c2_sys.change_scale 1).planets).headI

lemma c2_hT : c2_pd.pl_masse * 24 * 60 * 60 ≠ 0 := by
  norm_num [c2_pd]

lemma c2_hP : mkPlanet (mkStar 0 0 c2_sd) c2_pd 0 = .ok c2_P := by
  rw [c2_P, mkPlanet_ok (mkStar 0 0 c2_sd) c2_pd 0 c2_hT]
  rfl

lemma c2_sys_eq : c2_sys = ⟨mkStar 0 0 c2_sd, [c2_P]⟩ := by
  rw [c2_sys, init_bodies_singleton 0 0 c2_sd c2_pd 0 c2_P c2_hP]
  rfl

lemma mkStar_pole (x y : ℤ) (d : StarDict) : (mkStar x y d).pole = (x, y) := rfl

lemma mkStar_scale (x y : ℤ) (d : StarDict) : (mkStar x y d).scale = SCALE := rfl

lemma c2_P_radius : c2_P.radius = 8976000 := by
  rw [c2_P, mkPlanet_ok (mkStar 0 0 c2_sd) c2_pd 0 c2_hT]
  norm_num [okOr, c2_pd]

lemma c2_P_scale : c2_P.scale = SCALE := by
  rw [c2_P, mkPlanet_ok (mkStar 0 0 c2_sd) c2_pd 0 c2_hT]
  rfl

lemma c2_P_theta : c2_P.theta = 0 := by
  rw [c2_P, mkPlanet_ok (mkStar 0 0 c2_sd) c2_pd 0 c2_hT]
  rfl

lemma c2_P_pole : c2_P.pole = (0, 0) := by
  rw [c2_P, mkPlanet_ok (mkStar 0 0 c2_sd) c2_pd 0 c2_hT]
  rfl

lemma pyInt_eq_of_cast (z : ℤ) (x : ℝ) (h : x = (z : ℝ)) : pyInt x = z := by
  rw [h, pyInt_intCast]

lemma pyRound_eq_of_cast (z : ℤ) (x : ℝ) (h : x = (z : ℝ)) : pyRound x = z := by
  rw [h, pyRound_intCast]

/-- At angle 0 the second display coordinate is the pole's own. -/
lemma polar_snd_theta0 (a b : ℤ) (r : ℝ) : (polar_to_cartesian (a, b) r 0).2 = b := by
  unfold polar_to_cartesian
  simp [Real.sin_zero, pyInt_intCast]

lemma c2_P_rect_y : c2_P.rect.y = -3 := by
  rw [c2_P, mkPlanet_ok (mkStar 0 0 c2_sd) c2_pd 0 c2_hT]
  simp only [okOr]
  rw [show meter_to_cart SCALE (c2_pd.pl_rade * 6.371e6) * 2 = 6 from by
    norm_num [meter_to_cart, SCALE, c2_pd]]
  rw [mkStar_pole]
  simp only [Rect.setCenter, initRect]
  rw [polar_snd_theta0, pyInt_eq_of_cast 6 _ (by norm_num)]
  decide

lemma c2_planet_eq : c2_planet = c2_P.update_scale (SCALE * (1 + 1)) := by
  rw [c2_planet, c2_sys_eq]
  rfl

/-- C2 (counterexample): in the concretely constructed one-planet system,
immediately after `change_scale(1)` (scale doubled) the planet's display
center does not equal `polar_to_cartesian(pole, r, theta)` at the updated
polar radius: the rect was only resized in place, so its center y-coordinate
drifted to 3 while the recomputed position's y-coordinate is 0. -/
theorem C2_counterexample :
    init_bodies 0 0 c2_sd [(c2_pd, 0)] = .ok c2_sys ∧
    (c2_sys.change_scale 1).planets = [c2_planet] ∧
    c2_planet.rect.center ≠ polar_to_cartesian c2_planet.pole c2_planet.r c2_planet.theta := by
  refine ⟨?_, ?_, ?_⟩
  · rw [init_bodies_singleton 0 0 c2_sd c2_pd 0 c2_P c2_hP, c2_sys_eq]
  · rw [c2_sys_eq, c2_planet_eq]
    rfl
  · have hy : c2_planet.rect.center.2 = 3 := by
      rw [c2_planet_eq]
      simp only [Planet.update_scale, Rect.setSize, Rect.center]
      rw [c2_P_radius, c2_P_rect_y]
      rw [show meter_to_cart (SCALE * (1 + 1)) 8976000 * 2 = 12 from by
        norm_num [meter_to_cart, SCALE]]
      rw [pyRound_eq_of_cast 12 _ (by norm_num)]
      decide
    have hz : (polar_to_cartesian c2_planet.pole c2_planet.r c2_planet.theta).2 = 0 := by
      rw [c2_planet_eq]
      simp only [Planet.update_scale]
      rw [c2_P_pole, c2_P_theta]
      exact polar_snd_theta0 0 0 _
    intro h
    rw [h, hz] at hy
    exact absurd hy (by norm_num)

/-! ### C3: construction with zero host mass / zero period -/

/-- With zero host mass the Kepler radius is exactly zero
(`0.0 ** (1/3) = 0.0`, no exception). -/
lemma radial_distance_zero_mass (T : ℝ) : radial_distance 0 T = 0 := by
  unfold radial_distance
  rw [show G * 0 * T ^ 2 / (4 * Real.pi ^ 2) = 0 by ring]
  exact Real.zero_rpow (by norm_num)

/-- Constructing a planet around a zero-mass star raises nothing: it returns
a planet whose polar radius and angular velocity are both zero. -/
lemma mkPlanet_zero_host_mass (host : Star) (d : PlanetDict) (th : ℝ)
    (hm : host.mass = 0) (hT : d.pl_masse * 24 * 60 * 60 ≠ 0) :
    ∃ p, mkPlanet host d th = .ok p ∧ p.r = 0 ∧ p.vw = 0 := by
  refine ⟨_, mkPlanet_ok host d th hT, ?_, ?_⟩
  · show meter_to_cart SCALE (radial_distance host.mass (d.pl_masse * 24 * 60 * 60)) = 0
    rw [hm, radial_distance_zero_mass]
    norm_num [meter_to_cart]
  · show 2 * Real.pi * radial_distance host.mass (d.pl_masse * 24 * 60 * 60)
        / (d.pl_masse * 24 * 60 * 60) = 0
    rw [hm, radial_distance_zero_mass]
    simp

lemma mkStar_mass (x y : ℤ) (sd : StarDict) : (mkStar x y sd).mass = 1.989e30 * sd.st_mass := rfl

/-- C3 (amended): construction with host star mass 0 raises no error at all —
the planet is added to the system with polar radius 0 and angular velocity 0
(this also covers `pl_orbper = 0`, which only zeroes the planet's own mass
attribute).  The only construction-time failure is an untyped
`ZeroDivisionError` when the `T` attribute (`= 86400 * pl_masse`, by the
argument swap) is zero, which aborts `init_bodies` as a whole;
no `DivergentOrbitError`/`ValidationError` class exists in the code. -/
theorem C3_zero_inputs_amended (x y : ℤ) (sd : StarDict) (d d0 : PlanetDict) (th : ℝ)
    (hsm : sd.st_mass = 0) (hdm : d.pl_masse ≠ 0) (h0 : d0.pl_masse = 0) :
    (∃ p, init_bodies x y sd [(d, th)] = .ok ⟨mkStar x y sd, [p]⟩ ∧ p.r = 0 ∧ p.vw = 0) ∧
    init_bodies x y sd [(d0, th)] = .error .zeroDivision := by
  constructor
  · have hmass : (mkStar x y sd).mass = 0 := by
      rw [mkStar_mass, hsm]
      ring
    have hT : d.pl_masse * 24 * 60 * 60 ≠ 0 := by
      intro h
      apply hdm
      nlinarith
    obtain ⟨p, hp, hr, hv⟩ := mkPlanet_zero_host_mass (mkStar x y sd) d th hmass hT
    exact ⟨p, init_bodies_singleton x y sd d th p hp, hr, hv⟩
  · refine init_bodies_singleton_err x y sd d0 th _ (mkPlanet_err _ _ _ ?_)
    rw [h0]
    ring

/-- Witness for C3 (amended) at a zero-mass star with a `pl_orbper = 0`
planet, and a `pl_masse = 0` planet for the error branch. -/
theorem C3_witness :
    (∃ p, init_bodies 0 0 ⟨"s", 0, 1, 1⟩ [(⟨"p", 0, 1, 1⟩, 0)]
        = .ok ⟨mkStar 0 0 ⟨"s", 0, 1, 1⟩, [p]⟩ ∧ p.r = 0 ∧ p.vw = 0) ∧
    init_bodies 0 0 ⟨"s", 0, 1, 1⟩ [(⟨"q", 1, 1, 0⟩, 0)] = .error .zeroDivision :=
  C3_zero_inputs_amended 0 0 ⟨"s", 0, 1, 1⟩ ⟨"p", 0, 1, 1⟩ ⟨"q", 1, 1, 0⟩ 0
    rfl (by norm_num) rfl

/-- C3 (counterexample): at host star mass 0 and orbital period 0 — both
inputs the claim says must raise a typed error and be kept out of the system —
construction succeeds and the planet IS appended to the system's planet list
(with a silently divergent polar radius of 0). -/
theorem C3_counterexample :
    ∃ p, init_bodies 0 0 ⟨"cs", 0, 1, 1⟩ [(⟨"cp", 0, 1, 1⟩, 0)]
        = .ok ⟨mkStar 0 0 ⟨"cs", 0, 1, 1⟩, [p]⟩ ∧ p.r = 0 ∧ p.vw = 0 := by
  have hmass : (mkStar 0 0 (⟨"cs", 0, 1, 1⟩ : StarDict)).mass = 0 := by
    rw [mkStar_mass]
    norm_num
  obtain ⟨p, hp, hr, hv⟩ :=
    mkPlanet_zero_host_mass (mkStar 0 0 ⟨"cs", 0, 1, 1⟩) ⟨"cp", 0, 1, 1⟩ 0 hmass (by norm_num)
  exact ⟨p, init_bodies_singleton 0 0 _ _ 0 p hp, hr, hv⟩

/-! ### C6: the time-step integration of the angle -/

/-- The Kepler radius is strictly positive for positive host mass and
nonzero period. -/
lemma radial_distance_pos (M T : ℝ) (hM : 0 < M) (hT : T ≠ 0) :
    0 < radial_distance M T := by
  unfold radial_distance
  apply Real.rpow_pos_of_pos
  have hG : (0 : ℝ) < G := by norm_num [G]
  have hT2 : (0 : ℝ) < T ^ 2 := by positivity
  have hpi : (0 : ℝ) < 4 * Real.pi ^ 2 := by positivity
  exact div_pos (mul_pos (mul_pos hG hM) hT2) hpi

/-- C6: for every planet as constructed (positive host mass, positive
`pl_masse`, hence positive `T` and positive Kepler radius), `move(dt)`
succeeds and increments `theta` by exactly `(vw * dt) / r`, where `vw` is the
`2π·r/T` fixed at construction and `r` is the orbital radius recomputed from
`(host mass, T)` at that very call; hence `theta` strictly increases whenever
`dt > 0`. -/
theorem C6_move_angle_increment (host : Star) (d : PlanetDict) (th dt : ℝ) (p : Planet)
    (hp : mkPlanet host d th = .ok p) (hM : 0 < host.mass) (hm : 0 < d.pl_masse) :
    0 < p.get_radial_distance_from p.host_star ∧
    p.vw = 2 * Real.pi * p.get_radial_distance_from p.host_star / p.T ∧
    ∃ q, p.move dt = .ok q ∧
      q.theta = p.theta + p.vw * dt / p.get_radial_distance_from p.host_star ∧
      (0 < dt → p.theta < q.theta) := by
  have hTpos : 0 < d.pl_masse * 24 * 60 * 60 := by positivity
  rw [mkPlanet_ok host d th (ne_of_gt hTpos)] at hp
  obtain rfl := Except.ok.inj hp
  have hr0 : 0 < radial_distance host.mass (d.pl_masse * 24 * 60 * 60) :=
    radial_distance_pos _ _ hM (ne_of_gt hTpos)
  refine ⟨hr0, rfl, ?_⟩
  have hvw : 0 < 2 * Real.pi * radial_distance host.mass (d.pl_masse * 24 * 60 * 60)
      / (d.pl_masse * 24 * 60 * 60) := by
    apply div_pos _ hTpos
    have : (0 : ℝ) < 2 * Real.pi := by positivity
    exact mul_pos this hr0
  simp only [Planet.move, Planet.get_radial_distance_from]
  rw [if_neg (ne_of_gt hr0)]
  refine ⟨_, rfl, rfl, ?_⟩
  intro hdt
  have hstep : 0 < 2 * Real.pi * radial_distance host.mass (d.pl_masse * 24 * 60 * 60)
      / (d.pl_masse * 24 * 60 * 60) * dt
      / radial_distance host.mass (d.pl_masse * 24 * 60 * 60) :=
    div_pos (mul_pos hvw hdt) hr0
  simp only []
  linarith

/-- The concrete host and planet of C6's witness. -/
def c6_host : Star := mkStar 0 0 ⟨"w", 1, 1, 1⟩

/-- The concrete planet dictionary of C6's witness. -/
def c6_pd : PlanetDict := ⟨"wp", 1, 1, 1⟩

/-- The planet constructed for `c6_pd`. -/
def c6_p : Planet := okOr default (mkPlanet c6_host c6_pd 0)

lemma c6_hp : mkPlanet c6_host c6_pd 0 = .ok c6_p := by
  rw [c6_p, mkPlanet_ok c6_host c6_pd 0 (by norm_num [c6_pd])]
  rfl

/-- Witness for C6 at a one-solar-mass host and a one-earth-mass planet,
with dt = 1. -/
theorem C6_witness :
    0 < c6_p.get_radial_distance_from c6_p.host_star ∧
    c6_p.vw = 2 * Real.pi * c6_p.get_radial_distance_from c6_p.host_star / c6_p.T ∧
    ∃ q, c6_p.move 1 = .ok q ∧
      q.theta = c6_p.theta + c6_p.vw * 1 / c6_p.get_radial_distance_from c6_p.host_star ∧
      (0 < (1 : ℝ) → c6_p.theta < q.theta) :=
  C6_move_angle_increment c6_host c6_pd 0 1 c6_p c6_hp
    (by norm_num [c6_host, mkStar, convert_stellar_to_si]) (by norm_num [c6_pd])

/-! ### C8: planet and star share the pole -/

/-- A sequence of `change_scale` calls applied to a system. -/
def applyScales (sys : System) : List ℝ → System
  | [] => sys
  | c :: cs => applyScales (sys.change_scale c) cs

lemma mkPlanet_pole (host : Star) (d : PlanetDict) (th : ℝ) (p : Planet)
    (hp : mkPlanet host d th = .ok p) : p.pole = host.pole := by
  by_cases hT : d.pl_masse * 24 * 60 * 60 = 0
  · rw [mkPlanet_err host d th hT] at hp
    cases hp
  · rw [mkPlanet_ok host d th hT] at hp
    obtain rfl := Except.ok.inj hp
    rfl

lemma initPlanets_pole (host : Star) (pds : List (PlanetDict × ℝ)) (ps : List Planet)
    (h : initPlanets host pds = .ok ps) : ∀ p ∈ ps, p.pole = host.pole := by
  induction pds generalizing ps with
  | nil =>
    obtain rfl := Except.ok.inj h
    simp
  | cons hd tl ih =>
    obtain ⟨d, th⟩ := hd
    simp only [initPlanets] at h
    cases hmk : mkPlanet host d th with
    | error e =>
      rw [hmk] at h
      cases h
    | ok p =>
      rw [hmk] at h
      cases hrest : initPlanets host tl with
      | error e =>
        rw [hrest] at h
        cases h
      | ok ps' =>
        rw [hrest] at h
        obtain rfl := Except.ok.inj h
        intro q hq
        rcases List.mem_cons.mp hq with rfl | hq'
        · exact mkPlanet_pole host d th q hmk
        · exact ih ps' hrest q hq'

/-- Every planet's pole equals the host star's pole. -/
def poleInv (sys : System) : Prop := ∀ p ∈ sys.planets, p.pole = sys.host_star.pole

lemma poleInv_change_scale (sys : System) (c : ℝ) (h : poleInv sys) :
    poleInv (sys.change_scale c) := by
  intro p hp
  simp only [System.change_scale, List.mem_map] at hp ⊢
  obtain ⟨q, hq, rfl⟩ := hp
  exact h q hq

lemma poleInv_applyScales (sys : System) (cs : List ℝ) (h : poleInv sys) :
    poleInv (applyScales sys cs) := by
  induction cs generalizing sys with
  | nil => exact h
  | cons c cs ih => exact ih _ (poleInv_change_scale sys c h)

lemma applyScales_host_pole (sys : System) (cs : List ℝ) :
    (applyScales sys cs).host_star.pole = sys.host_star.pole := by
  induction cs generalizing sys with
  | nil => rfl
  | cons c cs ih =>
    rw [applyScales, ih]
    rfl

/-- C8: in every system produced by `init_bodies` and after any number of
rescale operations, every planet's pole equals the host star's pole (the
star's pole itself never changes).  Pole values are immutable tuples that are
assigned once from the host's pole and never reassigned, so value equality is
the shallow rendering of the structural identity the claim states. -/
theorem C8_pole_shared (x y : ℤ) (sd : StarDict) (pds : List (PlanetDict × ℝ))
    (sys : System) (cs : List ℝ) (hs : init_bodies x y sd pds = .ok sys) :
    List.Forall (fun p => p.pole = (applyScales sys cs).host_star.pole)
      (applyScales sys cs).planets ∧
    (applyScales sys cs).host_star.pole = sys.host_star.pole := by
  have hinv : poleInv sys := by
    simp only [init_bodies] at hs
    cases hps : initPlanets (mkStar x y sd) pds with
    | error e =>
      rw [hps] at hs
      cases hs
    | ok ps =>
      rw [hps] at hs
      obtain rfl := Except.ok.inj hs
      intro p hp
      exact initPlanets_pole _ pds ps hps p hp
  exact ⟨List.forall_iff_forall_mem.mpr (poleInv_applyScales sys cs hinv),
    applyScales_host_pole sys cs⟩

/-- Witness for C8 on the concrete one-planet system, after one rescale. -/
theorem C8_witness :
    List.Forall (fun p => p.pole = (applyScales c2_sys [1]).host_star.pole)
      (applyScales c2_sys [1]).planets ∧
    (applyScales c2_sys [1]).host_star.pole = c2_sys.host_star.pole :=
  C8_pole_shared 0 0 c2_sd [(c2_pd, 0)] c2_sys [1]
    (by rw [init_bodies_singleton 0 0 c2_sd c2_pd 0 c2_P c2_hP, c2_sys_eq])

/-! ### C9: rescale round trip -/

/-- C9: rescaling the system by ratio k (`percent = k - 1`) and then by ratio
1/k (`percent = 1/k - 1`) returns, exactly in the real-number model, every
body's scale, polar radius `r`, and display radius
(`meter_to_cart(physical_radius, scale)`) to their pre-rescale values —
provided the planets' stored scales agree with the star's, as they do in
every reachable state. -/
theorem C9_rescale_round_trip (sys : System) (k : ℝ) (hk : 0 < k)
    (hs : sys.host_star.scale ≠ 0)
    (hps : List.Forall (fun p => p.scale = sys.host_star.scale) sys.planets) :
    ((sys.change_scale (k - 1)).change_scale (1 / k - 1)).host_star.scale
        = sys.host_star.scale ∧
    ((sys.change_scale (k - 1)).change_scale (1 / k - 1)).host_star.r
        = sys.host_star.r ∧
    meter_to_cart ((sys.change_scale (k - 1)).change_scale (1 / k - 1)).host_star.scale
        ((sys.change_scale (k - 1)).change_scale (1 / k - 1)).host_star.radius
      = meter_to_cart sys.host_star.scale sys.host_star.radius ∧
    ((sys.change_scale (k - 1)).change_scale (1 / k - 1)).planets.map Planet.r
      = sys.planets.map Planet.r ∧
    ((sys.change_scale (k - 1)).change_scale (1 / k - 1)).planets.map
        (fun p => meter_to_cart p.scale p.radius)
      = sys.planets.map (fun p => meter_to_cart p.scale p.radius) := by
  have hk0 : k ≠ 0 := ne_of_gt hk
  have hmem := List.forall_iff_forall_mem.mp hps
  have hscale : ((sys.change_scale (k - 1)).change_scale (1 / k - 1)).host_star.scale
      = sys.host_star.scale := by
    simp only [System.change_scale, Star.update_scale]
    field_simp
  refine ⟨hscale, ?_, ?_, ?_, ?_⟩
  · simp only [System.change_scale, Star.update_scale]
    field_simp
    ring
  · rw [hscale]
    rfl
  · simp only [System.change_scale, Star.update_scale, List.map_map]
    refine List.map_congr_left ?_
    intro p hp
    simp only [Function.comp_apply, Planet.update_scale]
    rw [hmem p hp]
    field_simp
    ring
  · simp only [System.change_scale, Star.update_scale, List.map_map]
    refine List.map_congr_left ?_
    intro p hp
    simp only [Function.comp_apply, Planet.update_scale]
    rw [hmem p hp]
    unfold meter_to_cart
    field_simp

/-- The concrete one-planet system of C9's witness. -/
def c9_sys : System :=
  { host_star := { (default : Star) with scale := 50000, r := 7, radius := 2.992e9 }
    planets := [{ (default : Planet) with scale := 50000, r := 40, radius := 2.992e9 }] }

/-- Witness for C9 at k = 2 on a concrete one-planet system. -/
theorem C9_witness :
    ((c9_sys.change_scale (2 - 1)).change_scale (1 / 2 - 1)).host_star.scale
        = c9_sys.host_star.scale ∧
    ((c9_sys.change_scale (2 - 1)).change_scale (1 / 2 - 1)).host_star.r
        = c9_sys.host_star.r ∧
    meter_to_cart ((c9_sys.change_scale (2 - 1)).change_scale (1 / 2 - 1)).host_star.scale
        ((c9_sys.change_scale (2 - 1)).change_scale (1 / 2 - 1)).host_star.radius
      = meter_to_cart c9_sys.host_star.scale c9_sys.host_star.radius ∧
    ((c9_sys.change_scale (2 - 1)).change_scale (1 / 2 - 1)).planets.map Planet.r
      = c9_sys.planets.map Planet.r ∧
    ((c9_sys.change_scale (2 - 1)).change_scale (1 / 2 - 1)).planets.map
        (fun p => meter_to_cart p.scale p.radius)
      = c9_sys.planets.map (fun p => meter_to_cart p.scale p.radius) :=
  C9_rescale_round_trip c9_sys 2 (by norm_num) (by norm_num [c9_sys])
    (by simp [c9_sys, List.Forall])

end SpaceSim
